import Mathlib

set_option maxRecDepth 8000

/-!
Verification of the physical-fitness recording tool.

This file gives a shallow embedding of the scoring engine, the grade
determination, the CSV import parser, the roster CSV export, and the two
spreadsheet export renderers of the repository, and proves the stated
properties about them.

Conventions of the embedding:
* JavaScript numbers are modelled as rationals (`ℚ`).  The only arithmetic
  the embedded code performs on measurements is comparison, `Math.max`, and
  the one-decimal truncation `Math.floor(x * 10) / 10`; all are exact on `ℚ`.
* The scoring tables use `max : Option ℚ`, where `none` models the
  JavaScript `Infinity` upper bound (`v <= Infinity` always holds).
* Decimal literals such as `8.1` are written `mkRat 81 10` so that they
  evaluate by kernel reduction.
* JavaScript strings are modelled as `List Char`; `strL` converts a Lean
  string literal.
* A trial-measurement record always carries first-try values (the import
  code zero-fills them), while second-try values are `Option ℚ`: `none`
  models an absent key, which is exactly the case where the source's
  `?? firstTry` fallback fires.
-/

namespace PhysicalFitness

/-- Strings of the embedded program are lists of characters. -/
abbrev Str := List Char

/-- Convert a Lean string literal to the embedded string type. -/
def strL (s : String) : Str := s.toList

/-- Characters treated as whitespace by `trim`. -/
def isWS (c : Char) : Bool := c = ' ' || c = '\t' || c = '\r' || c = '\n'

/-- JavaScript `String.prototype.trim`: remove leading and trailing whitespace. -/
def trimL (l : Str) : Str := ((l.dropWhile isWS).reverse.dropWhile isWS).reverse

/-- JavaScript `String.prototype.split(sep)` for a one-character separator.
`split` of the empty string is `[""]`, matching JavaScript. -/
def splitOnChar (sep : Char) : Str → List Str
  | [] => [[]]
  | c :: rest =>
    let groups := splitOnChar sep rest
    if c = sep then [] :: groups
    else
      match groups with
      | [] => [[c]]
      | g :: gs => (c :: g) :: gs

/-- The `gender` field of a student record (`'Boy' | 'Girl'`). -/
inductive Gender
  | Boy
  | Girl
deriving DecidableEq, Fintype

/-- The component keys of `componentOrder` / `scoringTables` in
`PhFitnessRecord.tsx`. -/
inductive Component
  | gripStrength
  | situps
  | seatedtoetouch
  | sidesteps
  | «20mshuttleruns»
  | «50msprint»
  | longjump
  | softballthrowing
deriving DecidableEq, Fintype

/-- The measurement keys of the `'1sttry'` / `'2ndtry'` records created by the
CSV import (`uploadToFirebase`). -/
inductive MeasKey
  | «20mshuttleruns»
  | «50msprint»
  | aveGrip
  | gripstrL
  | gripstrR
  | longjump
  | seatedtoetouch
  | sidesteps
  | situps
  | softballthrowing
deriving DecidableEq, Fintype

/-- One entry of a scoring table: `{ min, max, score }`.  `max = none`
models the JavaScript `Infinity` upper bound. -/
structure ScoreRange where
  min : ℚ
  max : Option ℚ
  score : ℕ
deriving DecidableEq

/-- The `scoringTables` constant of `PhFitnessRecord.tsx`, transcribed
range-for-range.  Decimal bounds of the `50msprint` tables are written with
`mkRat` (for example `mkRat 81 10` is the source's `8.1`). -/
def scoringTables : Component → Gender → List ScoreRange
  | .gripStrength, .Boy =>
    [⟨26, some 100, 10⟩, ⟨23, some 25, 9⟩, ⟨20, some 22, 8⟩, ⟨17, some 19, 7⟩,
     ⟨14, some 16, 6⟩, ⟨11, some 13, 5⟩, ⟨9, some 10, 4⟩, ⟨7, some 8, 3⟩,
     ⟨5, some 6, 2⟩, ⟨4, some 4, 1⟩]
  | .gripStrength, .Girl =>
    [⟨25, some 100, 10⟩, ⟨22, some 24, 9⟩, ⟨19, some 21, 8⟩, ⟨16, some 18, 7⟩,
     ⟨13, some 15, 6⟩, ⟨11, some 12, 5⟩, ⟨9, some 10, 4⟩, ⟨7, some 8, 3⟩,
     ⟨4, some 6, 2⟩, ⟨3, some 3, 1⟩]
  | .situps, .Boy =>
    [⟨26, none, 10⟩, ⟨23, some 25, 9⟩, ⟨20, some 22, 8⟩, ⟨18, some 19, 7⟩,
     ⟨15, some 17, 6⟩, ⟨12, some 14, 5⟩, ⟨10, some 11, 4⟩, ⟨6, some 9, 3⟩,
     ⟨3, some 5, 2⟩, ⟨2, some 2, 1⟩]
  | .situps, .Girl =>
    [⟨23, none, 10⟩, ⟨20, some 22, 9⟩, ⟨18, some 19, 8⟩, ⟨16, some 17, 7⟩,
     ⟨14, some 15, 6⟩, ⟨12, some 13, 5⟩, ⟨10, some 11, 4⟩, ⟨6, some 9, 3⟩,
     ⟨3, some 5, 2⟩, ⟨2, some 2, 1⟩]
  | .seatedtoetouch, .Boy =>
    [⟨49, none, 10⟩, ⟨43, some 48, 9⟩, ⟨38, some 42, 8⟩, ⟨34, some 37, 7⟩,
     ⟨30, some 33, 6⟩, ⟨27, some 29, 5⟩, ⟨23, some 26, 4⟩, ⟨19, some 22, 3⟩,
     ⟨15, some 18, 2⟩, ⟨14, some 14, 1⟩]
  | .seatedtoetouch, .Girl =>
    [⟨52, none, 10⟩, ⟨46, some 51, 9⟩, ⟨41, some 45, 8⟩, ⟨37, some 40, 7⟩,
     ⟨33, some 36, 6⟩, ⟨29, some 32, 5⟩, ⟨24, some 28, 4⟩, ⟨21, some 23, 3⟩,
     ⟨18, some 20, 2⟩, ⟨17, some 17, 1⟩]
  | .sidesteps, .Boy =>
    [⟨50, none, 10⟩, ⟨46, some 49, 9⟩, ⟨42, some 45, 8⟩, ⟨38, some 41, 7⟩,
     ⟨34, some 37, 6⟩, ⟨30, some 33, 5⟩, ⟨26, some 29, 4⟩, ⟨22, some 25, 3⟩,
     ⟨18, some 21, 2⟩, ⟨1, some 17, 1⟩]
  | .sidesteps, .Girl =>
    [⟨47, none, 10⟩, ⟨43, some 46, 9⟩, ⟨40, some 42, 8⟩, ⟨36, some 39, 7⟩,
     ⟨32, some 35, 6⟩, ⟨28, some 31, 5⟩, ⟨25, some 27, 4⟩, ⟨21, some 24, 3⟩,
     ⟨17, some 20, 2⟩, ⟨1, some 16, 1⟩]
  | .«20mshuttleruns», .Boy =>
    [⟨80, none, 10⟩, ⟨69, some 79, 9⟩, ⟨57, some 68, 8⟩, ⟨45, some 56, 7⟩,
     ⟨33, some 44, 6⟩, ⟨23, some 32, 5⟩, ⟨15, some 22, 4⟩, ⟨10, some 14, 3⟩,
     ⟨8, some 9, 2⟩, ⟨1, some 7, 1⟩]
  | .«20mshuttleruns», .Girl =>
    [⟨64, none, 10⟩, ⟨54, some 63, 9⟩, ⟨44, some 53, 8⟩, ⟨35, some 43, 7⟩,
     ⟨26, some 34, 6⟩, ⟨19, some 25, 5⟩, ⟨14, some 18, 4⟩, ⟨10, some 13, 3⟩,
     ⟨8, some 9, 2⟩, ⟨1, some 7, 1⟩]
  | .«50msprint», .Boy =>
    [⟨1, some 8, 10⟩, ⟨mkRat 81 10, some (mkRat 84 10), 9⟩,
     ⟨mkRat 85 10, some (mkRat 88 10), 8⟩, ⟨mkRat 89 10, some (mkRat 93 10), 7⟩,
     ⟨mkRat 94 10, some (mkRat 99 10), 6⟩, ⟨10, some (mkRat 106 10), 5⟩,
     ⟨mkRat 107 10, some (mkRat 114 10), 4⟩, ⟨mkRat 115 10, some (mkRat 122 10), 3⟩,
     ⟨mkRat 123 10, some 13, 2⟩, ⟨mkRat 131 10, none, 1⟩]
  | .«50msprint», .Girl =>
    [⟨1, some (mkRat 83 10), 10⟩, ⟨mkRat 84 10, some (mkRat 87 10), 9⟩,
     ⟨mkRat 88 10, some (mkRat 91 10), 8⟩, ⟨mkRat 92 10, some (mkRat 96 10), 7⟩,
     ⟨mkRat 97 10, some (mkRat 102 10), 6⟩, ⟨mkRat 103 10, some (mkRat 109 10), 5⟩,
     ⟨11, some (mkRat 116 10), 4⟩, ⟨mkRat 117 10, some (mkRat 124 10), 3⟩,
     ⟨mkRat 125 10, some (mkRat 132 10), 2⟩, ⟨mkRat 133 10, none, 1⟩]
  | .longjump, .Boy =>
    [⟨192, none, 10⟩, ⟨180, some 191, 9⟩, ⟨168, some 179, 8⟩, ⟨156, some 167, 7⟩,
     ⟨143, some 155, 6⟩, ⟨130, some 142, 5⟩, ⟨117, some 129, 4⟩, ⟨105, some 116, 3⟩,
     ⟨93, some 104, 2⟩, ⟨1, some 92, 1⟩]
  | .longjump, .Girl =>
    [⟨181, none, 10⟩, ⟨170, some 180, 9⟩, ⟨160, some 169, 8⟩, ⟨147, some 159, 7⟩,
     ⟨134, some 146, 6⟩, ⟨121, some 133, 5⟩, ⟨109, some 120, 4⟩, ⟨98, some 108, 3⟩,
     ⟨85, some 97, 2⟩, ⟨1, some 84, 1⟩]
  | .softballthrowing, .Boy =>
    [⟨40, none, 10⟩, ⟨35, some 39, 9⟩, ⟨30, some 34, 8⟩, ⟨24, some 29, 7⟩,
     ⟨18, some 23, 6⟩, ⟨13, some 17, 5⟩, ⟨10, some 12, 4⟩, ⟨7, some 9, 3⟩,
     ⟨4, some 6, 2⟩, ⟨1, some 3, 1⟩]
  | .softballthrowing, .Girl =>
    [⟨25, none, 10⟩, ⟨21, some 24, 9⟩, ⟨17, some 20, 8⟩, ⟨14, some 16, 7⟩,
     ⟨11, some 13, 6⟩, ⟨8, some 10, 5⟩, ⟨6, some 7, 4⟩, ⟨4, some 5, 3⟩,
     ⟨2, some 3, 2⟩, ⟨1, some 1, 1⟩]

/-- Comparison `v <= range.max` where `max = none` models `Infinity`
(the comparison is then always true). -/
def leMax (v : ℚ) : Option ℚ → Bool
  | none => true
  | some m => decide (v ≤ m)

/-- The range membership test used by `calculateScore`:
`value >= range.min && value <= range.max`. -/
def memB (v : ℚ) (r : ScoreRange) : Bool := decide (r.min ≤ v) && leMax v r.max

/-- The source's `truncateToOneDecimal`, `Math.floor(num * 10) / 10`.
Written on the numerator/denominator representation so that it evaluates by
kernel reduction; `truncateToOneDecimal_eq_floor` proves it equal to the
mathematical form `⌊q * 10⌋ / 10`. -/
def truncateToOneDecimal (q : ℚ) : ℚ := mkRat (q.num * 10 / (q.den : ℤ)) 10

/-- The `calculateScore` function of `PhFitnessRecord.tsx`.  For `50msprint`
the first try is truncated to one decimal and looked up; otherwise the best
of the two tries is looked up.  If no range matches, the score is `0`. -/
def calculateScore (component : Component) (gender : Gender)
    (firstTry secondTry : ℚ) : ℕ :=
  let ranges := scoringTables component gender
  if component = .«50msprint» then
    let truncatedFirstTry := truncateToOneDecimal firstTry
    match ranges.find?
        (fun range => leMax truncatedFirstTry range.max &&
          decide (range.min ≤ truncatedFirstTry)) with
    | some range => range.score
    | none => 0
  else
    let result := max firstTry secondTry
    match ranges.find?
        (fun range => decide (range.min ≤ result) && leMax result range.max) with
    | some range => range.score
    | none => 0

/-- Overlap test for two score ranges: their (closed, possibly unbounded)
intervals intersect iff each minimum is below the other's maximum. -/
def overlapB (r₁ r₂ : ScoreRange) : Bool :=
  leMax r₁.min r₂.max && leMax r₂.min r₁.max

/-- Pairwise disjointness of the ranges of a table. -/
def pairwiseDisjointB : List ScoreRange → Bool
  | [] => true
  | r :: rs => rs.all (fun s => !overlapB r s) && pairwiseDisjointB rs

lemma leMax_of_le {a b : ℚ} (h : a ≤ b) {o : Option ℚ} (hb : leMax b o = true) :
    leMax a o = true := by
  cases o with
  | none => rfl
  | some m =>
    simp only [leMax, decide_eq_true_eq] at hb ⊢
    exact le_trans h hb

lemma memB_min_le {v : ℚ} {r : ScoreRange} (h : memB v r = true) : r.min ≤ v := by
  simp only [memB, Bool.and_eq_true, decide_eq_true_eq] at h
  exact h.1

lemma memB_leMax {v : ℚ} {r : ScoreRange} (h : memB v r = true) :
    leMax v r.max = true := by
  simp only [memB, Bool.and_eq_true] at h
  exact h.2

lemma overlap_of_memB {v : ℚ} {r₁ r₂ : ScoreRange}
    (h₁ : memB v r₁ = true) (h₂ : memB v r₂ = true) : overlapB r₁ r₂ = true := by
  simp only [overlapB, Bool.and_eq_true]
  exact ⟨leMax_of_le (memB_min_le h₁) (memB_leMax h₂),
         leMax_of_le (memB_min_le h₂) (memB_leMax h₁)⟩

lemma memB_unique {v : ℚ} :
    ∀ {l : List ScoreRange}, pairwiseDisjointB l = true →
      ∀ r ∈ l, memB v r = true → ∀ r' ∈ l, memB v r' = true → r' = r := by
  intro l
  induction l with
  | nil => intro _ r hr; cases hr
  | cons a t ih =>
    intro hd r hr hmr r' hr' hmr'
    simp only [pairwiseDisjointB, Bool.and_eq_true, List.all_eq_true,
      Bool.not_eq_true'] at hd
    rcases List.mem_cons.mp hr with rfl | hrt
    · rcases List.mem_cons.mp hr' with rfl | hr't
      · rfl
      · exact absurd (overlap_of_memB hmr hmr') (by rw [hd.1 r' hr't]; simp)
    · rcases List.mem_cons.mp hr' with rfl | hr't
      · exact absurd (overlap_of_memB hmr' hmr) (by rw [hd.1 r hrt]; simp)
      · exact ih hd.2 r hrt hmr r' hr't hmr'

lemma find?_memB_eq {v : ℚ} :
    ∀ {l : List ScoreRange}, pairwiseDisjointB l = true →
      ∀ r ∈ l, memB v r = true → l.find? (memB v) = some r := by
  intro l
  induction l with
  | nil => intro _ r hr; cases hr
  | cons a t ih =>
    intro hd r hr hmr
    simp only [pairwiseDisjointB, Bool.and_eq_true, List.all_eq_true,
      Bool.not_eq_true'] at hd
    by_cases ha : memB v a = true
    · have : r = a := by
        rcases List.mem_cons.mp hr with rfl | hrt
        · rfl
        · exact absurd (overlap_of_memB ha hmr) (by rw [hd.1 r hrt]; simp)
      rw [List.find?_cons_of_pos _ ha, this]
    · have hrt : r ∈ t := by
        rcases List.mem_cons.mp hr with rfl | hrt
        · exact absurd hmr ha
        · exact hrt
      rw [List.find?_cons_of_neg _ ha]
      exact ih hd.2 r hrt hmr

lemma find?_memB_none {v : ℚ} {l : List ScoreRange}
    (h : ∀ r ∈ l, memB v r = false) : l.find? (memB v) = none := by
  rw [List.find?_eq_none]
  intro r hr
  rw [h r hr]
  simp

/-- Every scoring table has pairwise disjoint ranges. -/
lemma scoringTables_disjoint :
    ∀ (c : Component) (g : Gender), pairwiseDisjointB (scoringTables c g) = true := by
  decide

/-- Every scoring-table entry carries a score between 1 and 10. -/
lemma scoringTables_score_bounds :
    ∀ (c : Component) (g : Gender), ∀ r ∈ scoringTables c g,
      1 ≤ r.score ∧ r.score ≤ 10 := by
  decide

/-- Every scoring-table range starts at 1 or above. -/
lemma scoringTables_min_ge_one :
    ∀ (c : Component) (g : Gender), ∀ r ∈ scoringTables c g, (1 : ℚ) ≤ r.min := by
  decide

/-- The embedded truncation agrees with the source's mathematical form
`Math.floor(q * 10) / 10`. -/
lemma truncateToOneDecimal_eq_floor (q : ℚ) :
    truncateToOneDecimal q = ((⌊q * 10⌋ : ℤ) : ℚ) / 10 := by
  rw [truncateToOneDecimal, Rat.mkRat_eq_divInt, Rat.divInt_eq_div]
  congr 2
  conv_rhs => rw [show (q : ℚ) = (q.num : ℚ) / (q.den : ℚ) from (Rat.num_div_den q).symm]
  rw [show (q.num : ℚ) / (q.den : ℚ) * 10 = ((q.num * 10 : ℤ) : ℚ) / ((q.den : ℕ) : ℚ) by
    push_cast; ring]
  rw [Rat.floor_intCast_div_natCast]

/-- Truncation is the identity on integers. -/
lemma truncateToOneDecimal_intCast (n : ℤ) :
    truncateToOneDecimal ((n : ℤ) : ℚ) = (n : ℚ) := by
  rw [truncateToOneDecimal_eq_floor]
  rw [show ((n : ℚ) * 10) = ((n * 10 : ℤ) : ℚ) by push_cast; ring, Int.floor_intCast]
  push_cast
  field_simp

/-- Truncation is idempotent: the truncated value is already at one decimal. -/
lemma truncateToOneDecimal_idem (q : ℚ) :
    truncateToOneDecimal (truncateToOneDecimal q) = truncateToOneDecimal q := by
  rw [truncateToOneDecimal_eq_floor (truncateToOneDecimal q), truncateToOneDecimal_eq_floor q,
    show ((⌊q * 10⌋ : ℚ) / 10 * 10) = ((⌊q * 10⌋ : ℤ) : ℚ) by field_simp,
    Int.floor_intCast]

/-- Unfolding of `calculateScore` on the `50msprint` branch: the find
predicate is `memB` at the truncated first try. -/
lemma calculateScore_sprint (g : Gender) (t₁ t₂ : ℚ) :
    calculateScore .«50msprint» g t₁ t₂ =
      match (scoringTables .«50msprint» g).find? (memB (truncateToOneDecimal t₁)) with
      | some r => r.score
      | none => 0 := by
  have hp : (fun range => leMax (truncateToOneDecimal t₁) range.max &&
      decide (range.min ≤ truncateToOneDecimal t₁)) = memB (truncateToOneDecimal t₁) := by
    funext r
    rw [memB, Bool.and_comm]
  rw [calculateScore]
  simp only [reduceIte, hp]

/-- Unfolding of `calculateScore` on the non-sprint branch: the find
predicate is `memB` at `max firstTry secondTry`. -/
lemma calculateScore_other (c : Component) (g : Gender) (t₁ t₂ : ℚ)
    (hc : c ≠ .«50msprint») :
    calculateScore c g t₁ t₂ =
      match (scoringTables c g).find? (memB (max t₁ t₂)) with
      | some r => r.score
      | none => 0 := by
  have hp : (fun range => decide (range.min ≤ max t₁ t₂) && leMax (max t₁ t₂) range.max) =
      memB (max t₁ t₂) := by
    funext r
    rw [memB]
  rw [calculateScore, if_neg hc]
  simp only [hp]

/-- Characterization of the covered integers of a table whose last range is
unbounded: an integer is inside some range iff it is at least `lo`. -/
lemma covered_char_unbounded (l : List ScoreRange) (lo B : ℤ)
    (h1 : ∀ j ∈ Finset.Icc lo B, ∃ r ∈ l, memB (j : ℚ) r = true)
    (h2 : ∃ r ∈ l, r.max = none ∧ r.min ≤ (B : ℚ))
    (h3 : ∀ r ∈ l, (lo : ℚ) ≤ r.min) (n : ℤ) :
    (∃ r ∈ l, memB (n : ℚ) r = true) ↔ lo ≤ n := by
  constructor
  · rintro ⟨r, hrl, hr⟩
    have := le_trans (h3 r hrl) (memB_min_le hr)
    exact_mod_cast this
  · intro hlo
    by_cases hnB : n ≤ B
    · exact h1 n (Finset.mem_Icc.mpr ⟨hlo, hnB⟩)
    · obtain ⟨r, hrl, hmax, hmin⟩ := h2
      refine ⟨r, hrl, ?_⟩
      have hBn : (B : ℚ) ≤ (n : ℚ) := by exact_mod_cast le_of_lt (lt_of_not_le hnB)
      simp only [memB, hmax, leMax, Bool.and_eq_true, decide_eq_true_eq]
      exact ⟨le_trans hmin hBn, trivial⟩

/-- Characterization of the covered integers of a table all of whose ranges
are bounded: an integer is inside some range iff it lies in `[lo, hi]`. -/
lemma covered_char_bounded (l : List ScoreRange) (lo hi : ℤ)
    (h1 : ∀ j ∈ Finset.Icc lo hi, ∃ r ∈ l, memB (j : ℚ) r = true)
    (h3 : ∀ r ∈ l, (lo : ℚ) ≤ r.min ∧ ∃ m, r.max = some m ∧ m ≤ (hi : ℚ)) (n : ℤ) :
    (∃ r ∈ l, memB (n : ℚ) r = true) ↔ lo ≤ n ∧ n ≤ hi := by
  constructor
  · rintro ⟨r, hrl, hr⟩
    obtain ⟨hlo, m, hm, hmhi⟩ := h3 r hrl
    have h₁ : (lo : ℚ) ≤ (n : ℚ) := le_trans hlo (memB_min_le hr)
    have h₂ : (n : ℚ) ≤ (hi : ℚ) := by
      have := memB_leMax hr
      rw [hm] at this
      simp only [leMax, decide_eq_true_eq] at this
      exact le_trans this hmhi
    exact ⟨by exact_mod_cast h₁, by exact_mod_cast h₂⟩
  · intro ⟨hlo, hhi⟩
    exact h1 n (Finset.mem_Icc.mpr ⟨hlo, hhi⟩)

lemma memB_eq_false_of_lt {v : ℚ} {r : ScoreRange} (h : v < r.min) :
    memB v r = false := by
  rw [memB, decide_eq_false (not_le.mpr h), Bool.false_and]

/-- C1: for every component of the scoring tables and both genders, every
integer value lying inside some range of the table lies in exactly one range
and `calculateScore` returns that range's score, an integer in 1–10; every
integer in no range (zero, negative, or out of bounds) yields score 0; and
the covered integers form a contiguous interval. -/
theorem C1_scoring_total_and_partitioning :
    ∀ (c : Component) (g : Gender) (n : ℤ),
      (∀ r ∈ scoringTables c g, memB (n : ℚ) r = true →
        ((∀ r' ∈ scoringTables c g, memB (n : ℚ) r' = true → r' = r) ∧
         calculateScore c g (n : ℚ) (n : ℚ) = r.score ∧
         calculateScore c g (n : ℚ) 0 = r.score ∧
         1 ≤ r.score ∧ r.score ≤ 10)) ∧
      ((∀ r ∈ scoringTables c g, memB (n : ℚ) r = false) →
        calculateScore c g (n : ℚ) (n : ℚ) = 0 ∧
        calculateScore c g (n : ℚ) 0 = 0) ∧
      (∀ m k : ℤ, m ≤ n → n ≤ k →
        (∃ r ∈ scoringTables c g, memB (m : ℚ) r = true) →
        (∃ r ∈ scoringTables c g, memB (k : ℚ) r = true) →
        ∃ r ∈ scoringTables c g, memB (n : ℚ) r = true) := by
  intro c g n
  refine ⟨?_, ?_, ?_⟩
  · intro r hr hmem
    have hdisj := scoringTables_disjoint c g
    have huniq : ∀ r' ∈ scoringTables c g, memB (n : ℚ) r' = true → r' = r :=
      memB_unique hdisj r hr hmem
    have hfind := find?_memB_eq hdisj r hr hmem
    have hmin1 : (1 : ℚ) ≤ r.min := scoringTables_min_ge_one c g r hr
    have hn0 : (0 : ℚ) ≤ (n : ℚ) :=
      le_trans zero_le_one (le_trans hmin1 (memB_min_le hmem))
    have hsb := scoringTables_score_bounds c g r hr
    refine ⟨huniq, ?_, ?_, hsb.1, hsb.2⟩
    · by_cases hc : c = .«50msprint»
      · subst hc
        rw [calculateScore_sprint, truncateToOneDecimal_intCast, hfind]
      · rw [calculateScore_other c g _ _ hc, max_self, hfind]
    · by_cases hc : c = .«50msprint»
      · subst hc
        rw [calculateScore_sprint, truncateToOneDecimal_intCast, hfind]
      · rw [calculateScore_other c g _ _ hc, max_eq_left hn0, hfind]
  · intro hall
    have hfind : (scoringTables c g).find? (memB (n : ℚ)) = none := find?_memB_none hall
    have hfind0 : (scoringTables c g).find? (memB (0 : ℚ)) = none := by
      apply find?_memB_none
      intro r hr
      exact memB_eq_false_of_lt
        (lt_of_lt_of_le zero_lt_one (scoringTables_min_ge_one c g r hr))
    constructor
    · by_cases hc : c = .«50msprint»
      · subst hc
        rw [calculateScore_sprint, truncateToOneDecimal_intCast, hfind]
      · rw [calculateScore_other c g _ _ hc, max_self, hfind]
    · by_cases hc : c = .«50msprint»
      · subst hc
        rw [calculateScore_sprint, truncateToOneDecimal_intCast, hfind]
      · rcases le_or_lt (0 : ℚ) (n : ℚ) with h0 | h0
        · rw [calculateScore_other c g _ _ hc, max_eq_left h0, hfind]
        · rw [calculateScore_other c g _ _ hc, max_eq_right (le_of_lt h0), hfind0]
  · intro m k hmn hnk hm hk
    cases c <;> cases g
    · have h := covered_char_bounded (scoringTables .gripStrength .Boy) 4 100
        (by decide) (by decide)
      exact (h n).mpr ⟨le_trans ((h m).mp hm).1 hmn, le_trans hnk ((h k).mp hk).2⟩
    · have h := covered_char_bounded (scoringTables .gripStrength .Girl) 3 100
        (by decide) (by decide)
      exact (h n).mpr ⟨le_trans ((h m).mp hm).1 hmn, le_trans hnk ((h k).mp hk).2⟩
    · have h := covered_char_unbounded (scoringTables .situps .Boy) 2 26
        (by decide) (by decide) (by decide)
      exact (h n).mpr (le_trans ((h m).mp hm) hmn)
    · have h := covered_char_unbounded (scoringTables .situps .Girl) 2 23
        (by decide) (by decide) (by decide)
      exact (h n).mpr (le_trans ((h m).mp hm) hmn)
    · have h := covered_char_unbounded (scoringTables .seatedtoetouch .Boy) 14 49
        (by decide) (by decide) (by decide)
      exact (h n).mpr (le_trans ((h m).mp hm) hmn)
    · have h := covered_char_unbounded (scoringTables .seatedtoetouch .Girl) 17 52
        (by decide) (by decide) (by decide)
      exact (h n).mpr (le_trans ((h m).mp hm) hmn)
    · have h := covered_char_unbounded (scoringTables .sidesteps .Boy) 1 50
        (by decide) (by decide) (by decide)
      exact (h n).mpr (le_trans ((h m).mp hm) hmn)
    · have h := covered_char_unbounded (scoringTables .sidesteps .Girl) 1 47
        (by decide) (by decide) (by decide)
      exact (h n).mpr (le_trans ((h m).mp hm) hmn)
    · have h := covered_char_unbounded (scoringTables .«20mshuttleruns» .Boy) 1 80
        (by decide) (by decide) (by decide)
      exact (h n).mpr (le_trans ((h m).mp hm) hmn)
    · have h := covered_char_unbounded (scoringTables .«20mshuttleruns» .Girl) 1 64
        (by decide) (by decide) (by decide)
      exact (h n).mpr (le_trans ((h m).mp hm) hmn)
    · have h := covered_char_unbounded (scoringTables .«50msprint» .Boy) 1 14
        (by decide) (by decide) (by decide)
      exact (h n).mpr (le_trans ((h m).mp hm) hmn)
    · have h := covered_char_unbounded (scoringTables .«50msprint» .Girl) 1 14
        (by decide) (by decide) (by decide)
      exact (h n).mpr (le_trans ((h m).mp hm) hmn)
    · have h := covered_char_unbounded (scoringTables .longjump .Boy) 1 192
        (by decide) (by decide) (by decide)
      exact (h n).mpr (le_trans ((h m).mp hm) hmn)
    · have h := covered_char_unbounded (scoringTables .longjump .Girl) 1 181
        (by decide) (by decide) (by decide)
      exact (h n).mpr (le_trans ((h m).mp hm) hmn)
    · have h := covered_char_unbounded (scoringTables .softballthrowing .Boy) 1 40
        (by decide) (by decide) (by decide)
      exact (h n).mpr (le_trans ((h m).mp hm) hmn)
    · have h := covered_char_unbounded (scoringTables .softballthrowing .Girl) 1 25
        (by decide) (by decide) (by decide)
      exact (h n).mpr (le_trans ((h m).mp hm) hmn)

/-- C1 witness: the integer 24 lies only in the boys' sit-ups range
`[23, 25]`, and `calculateScore` yields its score 9. -/
theorem C1_scoring_total_and_partitioning_witness :
    (∀ r' ∈ scoringTables .situps .Boy, memB ((24 : ℤ) : ℚ) r' = true →
      r' = (⟨23, some 25, 9⟩ : ScoreRange)) ∧
    calculateScore .situps .Boy ((24 : ℤ) : ℚ) ((24 : ℤ) : ℚ) = 9 := by
  have h := (C1_scoring_total_and_partitioning .situps .Boy 24).1
    (⟨23, some 25, 9⟩ : ScoreRange) (by decide) (by decide)
  exact ⟨h.1, h.2.1⟩

/-- C4: for the `50msprint` component, `calculateScore` truncates the
first-trial time to one decimal place, `⌊10·x⌋/10`, before the range lookup
(truncation, not rounding); in particular a Boy's 8.06 is looked up as 8.0
and scores 10, and 8.19 is looked up as 8.1 and scores 9. -/
theorem C4_sprint_truncates_before_lookup :
    (∀ (g : Gender) (t₁ t₂ : ℚ),
      calculateScore .«50msprint» g t₁ t₂ =
        calculateScore .«50msprint» g (((⌊t₁ * 10⌋ : ℤ) : ℚ) / 10) t₂) ∧
    truncateToOneDecimal (mkRat 806 100) = 8 ∧
    calculateScore .«50msprint» .Boy (mkRat 806 100) 0 = 10 ∧
    truncateToOneDecimal (mkRat 819 100) = mkRat 81 10 ∧
    calculateScore .«50msprint» .Boy (mkRat 819 100) 0 = 9 := by
  refine ⟨?_, by decide, by decide, by decide, by decide⟩
  intro g t₁ t₂
  rw [← truncateToOneDecimal_eq_floor, calculateScore_sprint, calculateScore_sprint,
    truncateToOneDecimal_idem]

/-- The `gradeThresholds` constant: per grade level G1–G6, five descending
minimum-total-score thresholds. -/
def gradeThresholds (s : Str) : Option (List ℤ) :=
  if s = strL "G1" then some [39, 33, 27, 22, 2]
  else if s = strL "G2" then some [47, 41, 34, 27, 26]
  else if s = strL "G3" then some [53, 46, 39, 32, 31]
  else if s = strL "G4" then some [59, 52, 45, 38, 37]
  else if s = strL "G5" then some [65, 58, 50, 42, 41]
  else if s = strL "G6" then some [71, 63, 55, 46, 45]
  else none

/-- The index loop of `determineGrade`: return `String.fromCharCode(65 + i)`
for the first threshold the total meets, else `'E'`. -/
def walk (totalScore : ℤ) : List ℤ → ℕ → Char
  | [], _ => 'E'
  | t :: rest, i => if totalScore ≥ t then Char.ofNat (65 + i) else walk totalScore rest (i + 1)

/-- The `determineGrade` function.  The threshold lookup uses the 2-character
prefix of `gradeLevel`; an unknown prefix yields `undefined` in the source and
the subsequent `.length` access throws, modelled here as `none`. -/
def determineGrade? (totalScore : ℤ) (gradeLevel : Str) : Option Char :=
  match gradeThresholds (gradeLevel.take 2) with
  | none => none
  | some thresholds => some (walk totalScore thresholds 0)

/-- Modelled from the spec: the position of the first threshold in the list
that `totalScore` meets or exceeds. -/
def firstMetIdx (totalScore : ℤ) : List ℤ → Option ℕ
  | [] => none
  | t :: rest =>
    if totalScore ≥ t then some 0 else (firstMetIdx totalScore rest).map (· + 1)

/-- Modelled from the spec: the letter of the first threshold met (`'A'` for
the first, `'B'` for the second, ...), `'E'` if none is met. -/
def firstMetLetter (totalScore : ℤ) (thresholds : List ℤ) : Char :=
  match firstMetIdx totalScore thresholds with
  | some i => Char.ofNat (65 + i)
  | none => 'E'

lemma walk_eq_firstMetIdx (s : ℤ) :
    ∀ (ts : List ℤ) (i : ℕ), walk s ts i =
      match firstMetIdx s ts with
      | some j => Char.ofNat (65 + i + j)
      | none => 'E' := by
  intro ts
  induction ts with
  | nil => intro i; rfl
  | cons t rest ih =>
    intro i
    rw [walk, firstMetIdx]
    by_cases h : s ≥ t
    · rw [if_pos h, if_pos h]
      show Char.ofNat (65 + i) = Char.ofNat (65 + i + 0)
      congr 1
    · rw [if_neg h, if_neg h, ih (i + 1)]
      cases firstMetIdx s rest with
      | none => rfl
      | some j =>
        show Char.ofNat (65 + (i + 1) + j) = Char.ofNat (65 + i + (j + 1))
        congr 1
        omega

lemma gradeThresholds_shape {s : Str} {ts : List ℤ} (h : gradeThresholds s = some ts) :
    ∃ a b c d e : ℤ, ts = [a, b, c, d, e] := by
  rw [gradeThresholds] at h
  split_ifs at h <;> exact ⟨_, _, _, _, _, (Option.some_inj.mp h).symm⟩

lemma walk_zero_eq_firstMetLetter (s : ℤ) (ts : List ℤ) :
    walk s ts 0 = firstMetLetter s ts := by
  rw [walk_eq_firstMetIdx, firstMetLetter]

/-- C5: `determineGrade` takes the 2-character prefix of the grade level,
walks that grade's threshold list in order and returns the letter of the
first threshold the total meets or exceeds (`'A'` for the first, `'B'` for
the second, ...), `'E'` when none is met; `determineGrade(45, "G2")` with G2
thresholds `[47, 41, 34, 27, 26]` returns `'B'`. -/
theorem C5_determineGrade_first_threshold :
    (∀ (s : ℤ) (gl : Str) (ts : List ℤ), gradeThresholds (gl.take 2) = some ts →
      determineGrade? s gl = some (firstMetLetter s ts)) ∧
    gradeThresholds (strL "G2") = some [47, 41, 34, 27, 26] ∧
    determineGrade? 45 (strL "G2") = some 'B' := by
  refine ⟨?_, by decide, by decide⟩
  intro s gl ts h
  rw [determineGrade?, h]
  show some (walk s ts 0) = some (firstMetLetter s ts)
  rw [walk_zero_eq_firstMetLetter]

/-- C5 witness: the characterization applied to total 45 and grade level
"G2A". -/
theorem C5_determineGrade_first_threshold_witness :
    determineGrade? 45 (strL "G2A") = some (firstMetLetter 45 [47, 41, 34, 27, 26]) :=
  C5_determineGrade_first_threshold.1 45 (strL "G2A") [47, 41, 34, 27, 26] (by decide)

lemma walk_monotone_five (a b c d e s₁ s₂ : ℤ) (h : s₁ ≤ s₂) :
    walk s₂ [a, b, c, d, e] 0 ≤ walk s₁ [a, b, c, d, e] 0 := by
  simp only [walk]
  split_ifs <;> first | rfl | decide | omega

/-- C6: `determineGrade` is monotonic in the total score — for every grade
level in the threshold table and totals `s₁ ≤ s₂`, the letter returned for
`s₂` is alphabetically no later than the one returned for `s₁`. -/
theorem C6_determineGrade_monotone :
    ∀ (gl : Str) (s₁ s₂ : ℤ) (c₁ c₂ : Char), s₁ ≤ s₂ →
      determineGrade? s₁ gl = some c₁ → determineGrade? s₂ gl = some c₂ →
      c₂ ≤ c₁ := by
  intro gl s₁ s₂ c₁ c₂ hle h₁ h₂
  rw [determineGrade?] at h₁ h₂
  cases hth : gradeThresholds (gl.take 2) with
  | none => rw [hth] at h₁; cases h₁
  | some ts =>
    rw [hth] at h₁ h₂
    have hc₁ : c₁ = walk s₁ ts 0 := (Option.some_inj.mp h₁).symm
    have hc₂ : c₂ = walk s₂ ts 0 := (Option.some_inj.mp h₂).symm
    obtain ⟨a, b, c, d, e, rfl⟩ := gradeThresholds_shape hth
    rw [hc₁, hc₂]
    exact walk_monotone_five a b c d e s₁ s₂ hle

/-- C6 witness: for grade level "G1A", raising the total from 30 to 35
improves the grade from 'C' to 'B'. -/
theorem C6_determineGrade_monotone_witness :
    (30 : ℤ) ≤ 35 ∧ determineGrade? 30 (strL "G1A") = some 'C' ∧
    determineGrade? 35 (strL "G1A") = some 'B' ∧ 'B' ≤ 'C' :=
  ⟨by decide, by decide, by decide,
    C6_determineGrade_monotone (strL "G1A") 30 35 'C' 'B' (by decide) (by decide)
      (by decide)⟩

/-- C10 counterexample: for total 10 and grade level "G1A" the returned
letter is 'E' even though a threshold (the fifth, 2) is met — refuting the
claim that 'E' is returned only when no threshold is met. -/
theorem C10_E_counterexample :
    determineGrade? 10 (strL "G1A") = some 'E' ∧
    gradeThresholds ((strL "G1A").take 2) = some [39, 33, 27, 22, 2] ∧
    ¬(∀ t ∈ [(39 : ℤ), 33, 27, 22, 2], 10 < t) := by
  decide

/-- C10 (amended): `determineGrade` is partial in its second argument — an
unknown 2-character prefix makes the threshold lookup fail (the `.length`
access throws, modelled as `none`); `'E'` is returned only when the prefix
is a known grade, and exactly when the total meets none of the first four
thresholds (meeting only the fifth also yields 'E', since the fifth letter
is 'E'). -/
theorem C10_partiality_amended :
    (∀ (s : ℤ) (gl : Str), gradeThresholds (gl.take 2) = none →
      determineGrade? s gl = none) ∧
    (∀ (s : ℤ) (gl : Str) (a b c d e : ℤ),
      gradeThresholds (gl.take 2) = some [a, b, c, d, e] →
      (determineGrade? s gl = some 'E' ↔ s < a ∧ s < b ∧ s < c ∧ s < d)) ∧
    determineGrade? 10 [] = none ∧
    determineGrade? 10 (strL "X1A") = none := by
  refine ⟨?_, ?_, by decide, by decide⟩
  · intro s gl h
    rw [determineGrade?, h]
  · intro s gl a b c d e h
    rw [determineGrade?, h]
    simp only [walk, Option.some_inj]
    split_ifs with h1 h2 h3 h4 h5
    · exact iff_of_false (by decide) (by omega)
    · exact iff_of_false (by decide) (by omega)
    · exact iff_of_false (by decide) (by omega)
    · exact iff_of_false (by decide) (by omega)
    · exact iff_of_true (by decide) (by omega)
    · exact iff_of_true rfl (by omega)

/-- C10 witness: the amended characterization applied to total 10 and grade
level "G1A". -/
theorem C10_partiality_amended_witness :
    determineGrade? 10 (strL "G1A") = some 'E' ↔
      ((10 : ℤ) < 39 ∧ (10 : ℤ) < 33 ∧ (10 : ℤ) < 27 ∧ (10 : ℤ) < 22) :=
  C10_partiality_amended.2.1 10 (strL "G1A") 39 33 27 22 2 (by decide)

/-- The student record built by the CSV import (`processCSV` in the upload
component): the seven required fields. -/
structure StudentData where
  enname : Str
  jpname : Str
  firstname : Str
  gender : Str
  grade : Str
  «class» : Str
  teacher : Str
deriving DecidableEq

/-- The value assigned to `student[name]` by
`headers.forEach((header, index) => student[header] = values[index] || '')`:
the value at the last index whose header equals `name` (later assignments
overwrite earlier ones), the empty string if the value is missing. -/
def fieldValue (headers values : List Str) (name : Str) : Str :=
  headers.enum.foldl
    (fun acc hi => if hi.2 = name then values.getD hi.1 [] else acc) []

/-- Build a `StudentData` from a header row and a value row. -/
def recordOf (headers values : List Str) : StudentData :=
  { enname := fieldValue headers values (strL "enname")
    jpname := fieldValue headers values (strL "jpname")
    firstname := fieldValue headers values (strL "firstname")
    gender := fieldValue headers values (strL "gender")
    grade := fieldValue headers values (strL "grade")
    «class» := fieldValue headers values (strL "class")
    teacher := fieldValue headers values (strL "teacher") }

/-- The required-field filter of `processCSV`: all seven fields truthy
(non-empty). -/
def requiredOk (s : StudentData) : Bool :=
  !s.enname.isEmpty && !s.jpname.isEmpty && !s.firstname.isEmpty &&
  !s.gender.isEmpty && !s.grade.isEmpty && !s.«class».isEmpty &&
  !s.teacher.isEmpty

/-- The unfiltered rows of `processCSV`: split into lines, zip each data line
against the trimmed header line. -/
def rawRecords (csvData : Str) : List StudentData :=
  let lines := splitOnChar '\n' csvData
  let headers := (splitOnChar ',' (lines.headD [])).map trimL
  (lines.drop 1).map (fun line => recordOf headers ((splitOnChar ',' line).map trimL))

/-- The `processCSV` function of the CSV-upload component. -/
def processCSV (csvData : Str) : List StudentData :=
  (rawRecords csvData).filter requiredOk

/-- C7: the import parser keeps a data row iff all seven required fields are
non-empty after trimming; short rows get empty trailing fields and fall to
the same filter, so a row missing `teacher` is dropped; empty and
header-only inputs give the empty list without error. -/
theorem C7_import_required_fields :
    (∀ (csv : Str) (s : StudentData), s ∈ processCSV csv →
      s.enname ≠ [] ∧ s.jpname ≠ [] ∧ s.firstname ≠ [] ∧ s.gender ≠ [] ∧
      s.grade ≠ [] ∧ s.«class» ≠ [] ∧ s.teacher ≠ []) ∧
    (∀ (csv : Str) (s : StudentData),
      s ∈ processCSV csv ↔ s ∈ rawRecords csv ∧ requiredOk s = true) ∧
    processCSV [] = [] ∧
    processCSV (strL "enname,jpname,firstname,gender,grade,class,teacher") = [] ∧
    processCSV
      (strL "enname,jpname,firstname,gender,grade,class,teacher\nJohn Smith,スミス,John,Boy,G1,G1A") = [] ∧
    processCSV
      (strL "enname,jpname,firstname,gender,grade,class,teacher\nJohn Smith,スミス,John,Boy,G1,G1A,Tanaka") =
      [⟨strL "John Smith", strL "スミス", strL "John", strL "Boy", strL "G1",
        strL "G1A", strL "Tanaka"⟩] := by
  refine ⟨?_, ?_, by decide, by decide, by decide, by decide⟩
  · intro csv s hs
    have h := (List.mem_filter.mp hs).2
    simp only [requiredOk, Bool.and_eq_true, Bool.not_eq_true',
      List.isEmpty_eq_false] at h
    exact ⟨h.1.1.1.1.1.1, h.1.1.1.1.1.2, h.1.1.1.1.2, h.1.1.1.2, h.1.1.2,
      h.1.2, h.2⟩
  · intro csv s
    exact List.mem_filter

/-- C7 witness: the parsed record of the complete example row has a
non-empty teacher field. -/
theorem C7_import_required_fields_witness :
    (⟨strL "John Smith", strL "スミス", strL "John", strL "Boy", strL "G1",
      strL "G1A", strL "Tanaka"⟩ : StudentData).teacher ≠ [] :=
  (C7_import_required_fields.1
    (strL "enname,jpname,firstname,gender,grade,class,teacher\nJohn Smith,スミス,John,Boy,G1,G1A,Tanaka")
    _ (by decide)).2.2.2.2.2.2

/-- The keyed update `studentsByClass[student.class].push(student)` of
`uploadToFirebase` (creating the bucket if absent; object keys keep
insertion order). -/
def addToGroups : List (Str × List StudentData) → StudentData →
    List (Str × List StudentData)
  | [], s => [(s.«class», [s])]
  | (c, l) :: rest, s =>
    if c = s.«class» then (c, l ++ [s]) :: rest
    else (c, l) :: addToGroups rest s

/-- Grouping of the parsed students by `class`, in encounter order. -/
def groupByClass (students : List StudentData) : List (Str × List StudentData) :=
  students.foldl addToGroups []

/-- Lookup of one class bucket (`studentsByClass[cls]`, the empty list when
the class is absent). -/
def findClass : List (Str × List StudentData) → Str → List StudentData
  | [], _ => []
  | (c, l) :: rest, cls => if c = cls then l else findClass rest cls

/-- The slot-keyed records written for one class: `student{i + 1}` for the
`i`-th student of the bucket, modelled as the numeric slot `i + 1`. -/
def uploadPairs (students : List StudentData) (cls : Str) : List (ℕ × StudentData) :=
  (findClass (groupByClass students) cls).enum.map (fun p => (p.1 + 1, p.2))

/-- Slot-key order used when reading a class back: compare the numeric
suffix of the storage keys. -/
def keyLe (a b : ℕ × StudentData) : Prop := a.1 ≤ b.1

instance : DecidableRel keyLe := fun a b => Nat.decLe a.1 b.1

instance : IsTotal (ℕ × StudentData) keyLe := ⟨fun a b => Nat.le_total a.1 b.1⟩

instance : IsTrans (ℕ × StudentData) keyLe := ⟨fun _ _ _ => Nat.le_trans⟩

/-- The reader's numeric sort of the slot-keyed records. -/
def sortBySlot (l : List (ℕ × StudentData)) : List (ℕ × StudentData) :=
  List.insertionSort keyLe l

/-- One row of the roster CSV export (`downloadCSV`): the seven fields in
export order. -/
def rowOf (s : StudentData) : List Str :=
  [s.enname, s.jpname, s.firstname, s.gender, s.grade, s.«class», s.teacher]

lemma findClass_addToGroups (acc : List (Str × List StudentData))
    (s : StudentData) (cls : Str) :
    findClass (addToGroups acc s) cls =
      findClass acc cls ++ (if s.«class» = cls then [s] else []) := by
  induction acc with
  | nil =>
    by_cases h : s.«class» = cls <;> simp [addToGroups, findClass, h]
  | cons p rest ih =>
    obtain ⟨c, l⟩ := p
    rw [addToGroups]
    by_cases h1 : c = s.«class»
    · rw [if_pos h1, findClass, findClass]
      by_cases h2 : c = cls
      · rw [if_pos h2, if_pos h2, if_pos (h1.symm.trans h2)]
      · rw [if_neg h2, if_neg h2, if_neg (fun hh => h2 (h1.trans hh)), List.append_nil]
    · rw [if_neg h1, findClass, findClass]
      by_cases h2 : c = cls
      · rw [if_pos h2, if_pos h2,
          if_neg (fun hh => h1 (h2.trans hh.symm)), List.append_nil]
      · rw [if_neg h2, if_neg h2, ih]

lemma findClass_foldl (students : List StudentData) :
    ∀ (acc : List (Str × List StudentData)) (cls : Str),
      findClass (students.foldl addToGroups acc) cls =
        findClass acc cls ++ students.filter (fun s => decide (s.«class» = cls)) := by
  induction students with
  | nil => intro acc cls; simp
  | cons s rest ih =>
    intro acc cls
    rw [List.foldl_cons, ih, findClass_addToGroups, List.filter_cons]
    by_cases h : s.«class» = cls <;> simp [h]

/-- The class bucket after grouping is exactly the in-order filter of the
parsed students by class. -/
lemma findClass_groupByClass (students : List StudentData) (cls : Str) :
    findClass (groupByClass students) cls =
      students.filter (fun s => decide (s.«class» = cls)) := by
  rw [groupByClass, findClass_foldl]
  rfl

lemma le_fst_of_mem_enumFrom {α : Type} :
    ∀ (n : ℕ) (xs : List α) (p : ℕ × α), p ∈ List.enumFrom n xs → n ≤ p.1 := by
  intro n xs
  induction xs generalizing n with
  | nil => intro p hp; cases hp
  | cons x xs ih =>
    intro p hp
    rcases List.mem_cons.mp hp with rfl | hp'
    · exact le_refl n
    · exact Nat.le_of_succ_le (ih (n + 1) p hp')

lemma sorted_shift_enumFrom :
    ∀ (n : ℕ) (xs : List StudentData),
      List.Sorted keyLe ((List.enumFrom n xs).map (fun p => (p.1 + 1, p.2))) := by
  intro n xs
  induction xs generalizing n with
  | nil => exact List.sorted_nil
  | cons x xs ih =>
    rw [List.enumFrom, List.map_cons, List.sorted_cons]
    refine ⟨?_, ih (n + 1)⟩
    intro q hq
    obtain ⟨p, hp, rfl⟩ := List.mem_map.mp hq
    exact Nat.succ_le_succ (Nat.le_of_succ_le (le_fst_of_mem_enumFrom (n + 1) xs p hp))

lemma uploadPairs_sorted (students : List StudentData) (cls : Str) :
    List.Sorted keyLe (uploadPairs students cls) := by
  rw [uploadPairs, List.enum]
  exact sorted_shift_enumFrom 0 _

lemma uploadPairs_fst (students : List StudentData) (cls : Str) :
    (uploadPairs students cls).map Prod.fst =
      List.range' 1 (findClass (groupByClass students) cls).length := by
  rw [uploadPairs, List.map_map]
  have : (Prod.fst ∘ fun p : ℕ × StudentData => (p.1 + 1, p.2)) =
      (fun n => n + 1) ∘ Prod.fst := rfl
  rw [this, ← List.map_map, List.enum_map_fst, List.range'_eq_map_range]
  congr 1
  funext n
  exact Nat.add_comm n 1

lemma eq_of_perm_sorted_nodupKeys :
    ∀ (l₁ l₂ : List (ℕ × StudentData)), l₁.Perm l₂ →
      List.Sorted keyLe l₁ → List.Sorted keyLe l₂ →
      (l₂.map Prod.fst).Nodup → l₁ = l₂ := by
  intro l₁
  induction l₁ with
  | nil =>
    intro l₂ hp _ _ _
    exact hp.nil_eq
  | cons a t₁ ih =>
    intro l₂ hp hs₁ hs₂ hnd
    cases l₂ with
    | nil => exact absurd hp.symm.nil_eq (by simp)
    | cons b t₂ =>
      have hab : a = b := by
        have ha : a ∈ b :: t₂ := hp.subset (List.mem_cons_self a t₁)
        rcases List.mem_cons.mp ha with heq | hat
        · exact heq
        · exfalso
          have hb : b ∈ a :: t₁ := hp.symm.subset (List.mem_cons_self b t₂)
          have hba : keyLe b a := (List.sorted_cons.mp hs₂).1 a hat
          have hkey : a.1 = b.1 := by
            rcases List.mem_cons.mp hb with heq | hbt
            · rw [heq]
            · exact Nat.le_antisymm ((List.sorted_cons.mp hs₁).1 b hbt) hba
          have : b.1 ∈ t₂.map Prod.fst := by
            rw [← hkey]
            exact List.mem_map.mpr ⟨a, hat, rfl⟩
          exact (List.nodup_cons.mp hnd).1 this
      subst hab
      have ht : t₁ = t₂ :=
        ih t₂ hp.cons_inv (List.sorted_cons.mp hs₁).2 (List.sorted_cons.mp hs₂).2
          (List.nodup_cons.mp hnd).2
      rw [ht]

/-- C8: round-trip — for every CSV input, importing (parse, group by class,
store under numeric slot keys 1..n) and re-exporting the roster reproduces
exactly the seven field values of each passing student, in the original
relative order within each class, for any enumeration order of the stored
records (the reader's numeric slot sort recovers the upload order). -/
theorem C8_import_export_roundtrip :
    ∀ (csv : Str) (cls : Str) (l : List (ℕ × StudentData)),
      l.Perm (uploadPairs (processCSV csv) cls) →
      (sortBySlot l = uploadPairs (processCSV csv) cls ∧
       (sortBySlot l).map (fun p => rowOf p.2) =
         ((processCSV csv).filter (fun s => decide (s.«class» = cls))).map rowOf ∧
       (uploadPairs (processCSV csv) cls).map Prod.fst =
         List.range' 1
           ((processCSV csv).filter (fun s => decide (s.«class» = cls))).length) := by
  intro csv cls l hperm
  have hsorted₂ := uploadPairs_sorted (processCSV csv) cls
  have hfst := uploadPairs_fst (processCSV csv) cls
  have hnodup : ((uploadPairs (processCSV csv) cls).map Prod.fst).Nodup := by
    rw [hfst]
    exact List.nodup_range' _ _
  have hsort_perm : (sortBySlot l).Perm (uploadPairs (processCSV csv) cls) :=
    (List.perm_insertionSort keyLe l).trans hperm
  have heq : sortBySlot l = uploadPairs (processCSV csv) cls :=
    eq_of_perm_sorted_nodupKeys _ _ hsort_perm
      (List.sorted_insertionSort keyLe l) hsorted₂ hnodup
  refine ⟨heq, ?_, ?_⟩
  · rw [heq, uploadPairs, findClass_groupByClass, List.map_map]
    have hcomp : ((fun p : ℕ × StudentData => rowOf p.2) ∘
        (fun p : ℕ × StudentData => (p.1 + 1, p.2))) = rowOf ∘ Prod.snd := rfl
    rw [hcomp, ← List.map_map, List.enum_map_snd]
  · rw [hfst, findClass_groupByClass]

/-- C8 witness: a two-student class stored as slots 1 and 2, read back in
reversed order, sorts back to the upload order. -/
theorem C8_import_export_roundtrip_witness :
    sortBySlot
      [(2, ⟨strL "Bob", strL "ボ", strL "Bo", strL "Boy", strL "G1",
            strL "G1A", strL "Tanaka"⟩),
       (1, ⟨strL "Alice", strL "ア", strL "Al", strL "Girl", strL "G1",
            strL "G1A", strL "Tanaka"⟩)] =
      uploadPairs
        (processCSV
          (strL "enname,jpname,firstname,gender,grade,class,teacher\nAlice,ア,Al,Girl,G1,G1A,Tanaka\nBob,ボ,Bo,Boy,G1,G1A,Tanaka"))
        (strL "G1A") :=
  (C8_import_export_roundtrip
    (strL "enname,jpname,firstname,gender,grade,class,teacher\nAlice,ア,Al,Girl,G1,G1A,Tanaka\nBob,ボ,Bo,Boy,G1,G1A,Tanaka")
    (strL "G1A") _ (by decide)).1

/-- A student record as used by `PhFitnessRecord.tsx`.  First-try values are
always present (the import zero-fills every measurement key), so `«1sttry»`
is total; `«2ndtry»` values are `Option ℚ`, `none` modelling an absent key —
exactly the case in which the source's `?? firstTry` fallback (used on every
`'2ndtry'` read of the export renderers and the edit view) fires. -/
structure Student where
  enname : Str
  jpname : Str
  «class» : Str
  grade : Str
  gender : Gender
  «1sttry» : MeasKey → ℚ
  «2ndtry» : MeasKey → Option ℚ

/-- `handleInputChange` writing a first-try measurement. -/
def setTry1 (s : Student) (k : MeasKey) (v : ℚ) : Student :=
  { s with «1sttry» := fun k' => if k' = k then v else s.«1sttry» k' }

/-- `handleInputChange` writing a second-try measurement (always a number,
hence `some`). -/
def setTry2 (s : Student) (k : MeasKey) (v : ℚ) : Student :=
  { s with «2ndtry» := fun k' => if k' = k then some v else s.«2ndtry» k' }

/-- The `maxGripStrength` computed by both export renderers:
`Math.max(firstTryR, secondTryR ?? firstTryR, firstTryL, secondTryL ?? firstTryL)`
(`Math.max` of four arguments folds from the left). -/
def exportGripMax (s : Student) : ℚ :=
  max (max (max (s.«1sttry» .gripstrR) ((s.«2ndtry» .gripstrR).getD (s.«1sttry» .gripstrR)))
    (s.«1sttry» .gripstrL)) ((s.«2ndtry» .gripstrL).getD (s.«1sttry» .gripstrL))

/-- The score computed per component by the worksheet-population loop, as it
appears (identically) in `exportGradeToIndividualWorkbooks` and
`exportGradeToSingleWorkbook`: grip strength scores the max of four grips;
`situps`, `50msprint` and `20mshuttleruns` pass `(firstTry, 0)`; the other
components pass `(firstTry, secondTry ?? firstTry)`. -/
def exportComponentScore (s : Student) : Component → ℕ
  | .gripStrength => calculateScore .gripStrength s.gender (exportGripMax s) 0
  | .situps => calculateScore .situps s.gender (s.«1sttry» .situps) 0
  | .«50msprint» => calculateScore .«50msprint» s.gender (s.«1sttry» .«50msprint») 0
  | .«20mshuttleruns» =>
    calculateScore .«20mshuttleruns» s.gender (s.«1sttry» .«20mshuttleruns») 0
  | .seatedtoetouch =>
    calculateScore .seatedtoetouch s.gender (s.«1sttry» .seatedtoetouch)
      ((s.«2ndtry» .seatedtoetouch).getD (s.«1sttry» .seatedtoetouch))
  | .sidesteps =>
    calculateScore .sidesteps s.gender (s.«1sttry» .sidesteps)
      ((s.«2ndtry» .sidesteps).getD (s.«1sttry» .sidesteps))
  | .longjump =>
    calculateScore .longjump s.gender (s.«1sttry» .longjump)
      ((s.«2ndtry» .longjump).getD (s.«1sttry» .longjump))
  | .softballthrowing =>
    calculateScore .softballthrowing s.gender (s.«1sttry» .softballthrowing)
      ((s.«2ndtry» .softballthrowing).getD (s.«1sttry» .softballthrowing))

/-- The grip-strength score of the edit view (`renderGripStrength`): it reads
the raw `'2ndtry'` values with no `??` fallback, so an absent second-try key
makes `Math.max` produce `NaN`, which matches no range and scores 0. -/
def renderGripScore (s : Student) : ℕ :=
  match s.«2ndtry» .gripstrR, s.«2ndtry» .gripstrL with
  | some r2, some l2 =>
    calculateScore .gripStrength s.gender
      (max (max (max (s.«1sttry» .gripstrR) r2) (s.«1sttry» .gripstrL)) l2) 0
  | _, _ => 0

/-- The per-component score of the live edit view (`renderEditView`): grip
strength uses `renderGripStrength`; every other component — including
`situps`, `50msprint` and `20mshuttleruns` — passes
`(firstTry, secondTry ?? firstTry)` to `calculateScore`. -/
def editComponentScore (s : Student) : Component → ℕ
  | .gripStrength => renderGripScore s
  | .situps =>
    calculateScore .situps s.gender (s.«1sttry» .situps)
      ((s.«2ndtry» .situps).getD (s.«1sttry» .situps))
  | .«50msprint» =>
    calculateScore .«50msprint» s.gender (s.«1sttry» .«50msprint»)
      ((s.«2ndtry» .«50msprint»).getD (s.«1sttry» .«50msprint»))
  | .«20mshuttleruns» =>
    calculateScore .«20mshuttleruns» s.gender (s.«1sttry» .«20mshuttleruns»)
      ((s.«2ndtry» .«20mshuttleruns»).getD (s.«1sttry» .«20mshuttleruns»))
  | .seatedtoetouch =>
    calculateScore .seatedtoetouch s.gender (s.«1sttry» .seatedtoetouch)
      ((s.«2ndtry» .seatedtoetouch).getD (s.«1sttry» .seatedtoetouch))
  | .sidesteps =>
    calculateScore .sidesteps s.gender (s.«1sttry» .sidesteps)
      ((s.«2ndtry» .sidesteps).getD (s.«1sttry» .sidesteps))
  | .longjump =>
    calculateScore .longjump s.gender (s.«1sttry» .longjump)
      ((s.«2ndtry» .longjump).getD (s.«1sttry» .longjump))
  | .softballthrowing =>
    calculateScore .softballthrowing s.gender (s.«1sttry» .softballthrowing)
      ((s.«2ndtry» .softballthrowing).getD (s.«1sttry» .softballthrowing))

lemma calculateScore_sprint_secondTry_irrelevant (g : Gender) (t₁ t₂ t₂' : ℚ) :
    calculateScore .«50msprint» g t₁ t₂ = calculateScore .«50msprint» g t₁ t₂' := by
  rw [calculateScore_sprint, calculateScore_sprint]

lemma find?_memB_of_lt_one (c : Component) (g : Gender) (v : ℚ) (hv : v < 1) :
    (scoringTables c g).find? (memB v) = none :=
  find?_memB_none fun r hr =>
    memB_eq_false_of_lt (lt_of_lt_of_le hv (scoringTables_min_ge_one c g r hr))

lemma calculateScore_secondTry_drop (c : Component) (hc : c ≠ .«50msprint»)
    (g : Gender) (t₁ t₂ : ℚ) (hle : t₂ ≤ t₁) :
    calculateScore c g t₁ t₂ = calculateScore c g t₁ 0 := by
  rw [calculateScore_other c g t₁ t₂ hc, calculateScore_other c g t₁ 0 hc,
    max_eq_left hle]
  rcases le_or_lt 0 t₁ with h0 | h0
  · rw [max_eq_left h0]
  · rw [max_eq_right (le_of_lt h0), find?_memB_of_lt_one c g t₁ (by linarith),
      find?_memB_of_lt_one c g 0 (by norm_num)]

/-- The student used by the C2 counterexample and witness: first-try sit-ups
of 5, second-try sit-ups of `v`, every other measurement 0. -/
def situpStudent (v : ℚ) : Student :=
  { enname := [], jpname := [], «class» := strL "G1A", grade := strL "G1",
    gender := .Boy,
    «1sttry» := fun k => if k = .situps then 5 else 0,
    «2ndtry» := fun k => if k = .situps then some v else some 0 }

/-- C2 counterexample: in the live edit view, two students that differ only
in the second-trial sit-ups value get different sit-ups scores (10 vs 2), and
the edit-view score differs from the export score of the same student — the
claim that the score of `situps` depends only on the first trial in every
scoring path is false. -/
theorem C2_first_trial_only_counterexample :
    editComponentScore (situpStudent 30) .situps = 10 ∧
    editComponentScore (situpStudent 0) .situps = 2 ∧
    (∀ k, (situpStudent 30).«1sttry» k = (situpStudent 0).«1sttry» k) ∧
    (∀ k, k ≠ .situps → (situpStudent 30).«2ndtry» k = (situpStudent 0).«2ndtry» k) ∧
    editComponentScore (situpStudent 30) .situps ≠
      exportComponentScore (situpStudent 30) .situps := by
  decide

/-- C2 (amended): in both export renderers `situps`, `50msprint` and
`20mshuttleruns` are scored from the first trial alone (the second-trial
value is never read, and the `(firstTry, 0)` call equals the plain lookup of
the first trial); in the live edit view this holds unconditionally for
`50msprint` but for `situps` and `20mshuttleruns` only when the stored
second-trial value (or its fallback) does not exceed the first —
in particular at the zero-filled default. -/
theorem C2_first_trial_only_amended :
    (∀ (s : Student) (c : Component),
      (c = .situps ∨ c = .«50msprint» ∨ c = .«20mshuttleruns») →
      ∀ (k : MeasKey) (v : ℚ),
        exportComponentScore (setTry2 s k v) c = exportComponentScore s c) ∧
    (∀ (g : Gender) (t₁ t₂ t₂' : ℚ),
      calculateScore .«50msprint» g t₁ t₂ = calculateScore .«50msprint» g t₁ t₂') ∧
    (∀ (s : Student) (k : MeasKey) (v : ℚ),
      editComponentScore (setTry2 s k v) .«50msprint» =
        editComponentScore s .«50msprint») ∧
    (∀ s : Student,
      (s.«2ndtry» .situps).getD (s.«1sttry» .situps) ≤ s.«1sttry» .situps →
        editComponentScore s .situps = exportComponentScore s .situps) ∧
    (∀ s : Student,
      (s.«2ndtry» .«20mshuttleruns»).getD (s.«1sttry» .«20mshuttleruns») ≤
          s.«1sttry» .«20mshuttleruns» →
        editComponentScore s .«20mshuttleruns» =
          exportComponentScore s .«20mshuttleruns») ∧
    (∀ s : Student, exportComponentScore s .situps =
      calculateScore .situps s.gender (s.«1sttry» .situps) (s.«1sttry» .situps)) ∧
    (∀ s : Student, exportComponentScore s .«20mshuttleruns» =
      calculateScore .«20mshuttleruns» s.gender (s.«1sttry» .«20mshuttleruns»)
        (s.«1sttry» .«20mshuttleruns»)) := by
  refine ⟨?_, calculateScore_sprint_secondTry_irrelevant, ?_, ?_, ?_, ?_, ?_⟩
  · intro s c hc k v
    rcases hc with rfl | rfl | rfl <;> rfl
  · intro s k v
    show calculateScore .«50msprint» s.gender (s.«1sttry» .«50msprint»)
        (((setTry2 s k v).«2ndtry» .«50msprint»).getD (s.«1sttry» .«50msprint»)) =
      calculateScore .«50msprint» s.gender (s.«1sttry» .«50msprint»)
        ((s.«2ndtry» .«50msprint»).getD (s.«1sttry» .«50msprint»))
    exact calculateScore_sprint_secondTry_irrelevant s.gender _ _ _
  · intro s hle
    exact calculateScore_secondTry_drop .situps (by decide) s.gender _ _ hle
  · intro s hle
    exact calculateScore_secondTry_drop .«20mshuttleruns» (by decide) s.gender _ _ hle
  · intro s
    exact (calculateScore_secondTry_drop .situps (by decide) s.gender _ _
      (le_refl _)).symm
  · intro s
    exact (calculateScore_secondTry_drop .«20mshuttleruns» (by decide) s.gender _ _
      (le_refl _)).symm

/-- C2 witness: at the zero-filled default second trial, the edit view and
the export agree on the sit-ups score. -/
theorem C2_first_trial_only_amended_witness :
    editComponentScore (situpStudent 0) .situps =
      exportComponentScore (situpStudent 0) .situps :=
  C2_first_trial_only_amended.2.2.2.1 (situpStudent 0) (by decide)

/-- The student used by the C3 witness: every first try 10, every second
try 12. -/
def gripStudent : Student :=
  { enname := [], jpname := [], «class» := strL "G1A", grade := strL "G1",
    gender := .Boy,
    «1sttry» := fun _ => 10,
    «2ndtry» := fun _ => some 12 }

/-- C3: the grip-strength score is computed once per student as the table
lookup of the single value
`max(trial1R, trial2R-or-trial1R, trial1L, trial2L-or-trial1L)`; the edit
view's `renderGripStrength` computes the same score whenever both second-try
grips are present; and raising any single one of the four grip values to a
new maximum changes the score to the table score of that new maximum. -/
theorem C3_grip_strength_max_of_four :
    (∀ s : Student, exportComponentScore s .gripStrength =
      calculateScore .gripStrength s.gender (exportGripMax s) 0) ∧
    (∀ (s : Student) (r2 l2 : ℚ), s.«2ndtry» .gripstrR = some r2 →
      s.«2ndtry» .gripstrL = some l2 →
      renderGripScore s = exportComponentScore s .gripStrength) ∧
    (∀ (s : Student) (v : ℚ), exportGripMax s < v →
      (exportComponentScore (setTry1 s .gripstrR v) .gripStrength =
         calculateScore .gripStrength s.gender v 0 ∧
       exportComponentScore (setTry2 s .gripstrR v) .gripStrength =
         calculateScore .gripStrength s.gender v 0 ∧
       exportComponentScore (setTry1 s .gripstrL v) .gripStrength =
         calculateScore .gripStrength s.gender v 0 ∧
       exportComponentScore (setTry2 s .gripstrL v) .gripStrength =
         calculateScore .gripStrength s.gender v 0)) := by
  refine ⟨fun s => rfl, ?_, ?_⟩
  · intro s r2 l2 h2r h2l
    unfold renderGripScore
    rw [h2r, h2l]
    show calculateScore .gripStrength s.gender
        (max (max (max (s.«1sttry» .gripstrR) r2) (s.«1sttry» .gripstrL)) l2) 0 =
      calculateScore .gripStrength s.gender (exportGripMax s) 0
    rw [exportGripMax, h2r, h2l]
    simp only [Option.getD_some]
  · intro s v hv
    have hA : s.«1sttry» .gripstrR ≤ exportGripMax s :=
      le_trans (le_trans (le_max_left _ _) (le_max_left _ _)) (le_max_left _ _)
    have hB : (s.«2ndtry» .gripstrR).getD (s.«1sttry» .gripstrR) ≤ exportGripMax s :=
      le_trans (le_trans (le_max_right _ _) (le_max_left _ _)) (le_max_left _ _)
    have hC : s.«1sttry» .gripstrL ≤ exportGripMax s :=
      le_trans (le_max_right _ _) (le_max_left _ _)
    have hD : (s.«2ndtry» .gripstrL).getD (s.«1sttry» .gripstrL) ≤ exportGripMax s :=
      le_max_right _ _
    have hAv : s.«1sttry» .gripstrR ≤ v := le_of_lt (lt_of_le_of_lt hA hv)
    have hBv : (s.«2ndtry» .gripstrR).getD (s.«1sttry» .gripstrR) ≤ v :=
      le_of_lt (lt_of_le_of_lt hB hv)
    have hCv : s.«1sttry» .gripstrL ≤ v := le_of_lt (lt_of_le_of_lt hC hv)
    have hDv : (s.«2ndtry» .gripstrL).getD (s.«1sttry» .gripstrL) ≤ v :=
      le_of_lt (lt_of_le_of_lt hD hv)
    refine ⟨?_, ?_, ?_, ?_⟩
    · have hB' : (s.«2ndtry» .gripstrR).getD v ≤ v := by
        cases hx : s.«2ndtry» .gripstrR with
        | none => exact le_refl v
        | some x =>
          rw [hx] at hBv
          exact hBv
      have hmax : exportGripMax (setTry1 s .gripstrR v) = v := by
        show max (max (max v ((s.«2ndtry» .gripstrR).getD v)) (s.«1sttry» .gripstrL))
            ((s.«2ndtry» .gripstrL).getD (s.«1sttry» .gripstrL)) = v
        rw [max_eq_left hB', max_eq_left hCv, max_eq_left hDv]
      show calculateScore .gripStrength s.gender
          (exportGripMax (setTry1 s .gripstrR v)) 0 = _
      rw [hmax]
    · have hmax : exportGripMax (setTry2 s .gripstrR v) = v := by
        show max (max (max (s.«1sttry» .gripstrR) v) (s.«1sttry» .gripstrL))
            ((s.«2ndtry» .gripstrL).getD (s.«1sttry» .gripstrL)) = v
        rw [max_eq_right hAv, max_eq_left hCv, max_eq_left hDv]
      show calculateScore .gripStrength s.gender
          (exportGripMax (setTry2 s .gripstrR v)) 0 = _
      rw [hmax]
    · have hD' : (s.«2ndtry» .gripstrL).getD v ≤ v := by
        cases hx : s.«2ndtry» .gripstrL with
        | none => exact le_refl v
        | some x =>
          rw [hx] at hDv
          exact hDv
      have hmax : exportGripMax (setTry1 s .gripstrL v) = v := by
        show max (max (max (s.«1sttry» .gripstrR)
              ((s.«2ndtry» .gripstrR).getD (s.«1sttry» .gripstrR))) v)
            ((s.«2ndtry» .gripstrL).getD v) = v
        rw [max_eq_right (max_le hAv hBv), max_eq_left hD']
      show calculateScore .gripStrength s.gender
          (exportGripMax (setTry1 s .gripstrL v)) 0 = _
      rw [hmax]
    · have hmax : exportGripMax (setTry2 s .gripstrL v) = v := by
        show max (max (max (s.«1sttry» .gripstrR)
              ((s.«2ndtry» .gripstrR).getD (s.«1sttry» .gripstrR)))
            (s.«1sttry» .gripstrL)) v = v
        rw [max_eq_right (le_trans (max_le (max_le hAv hBv) hCv) (le_refl v))]
      show calculateScore .gripStrength s.gender
          (exportGripMax (setTry2 s .gripstrL v)) 0 = _
      rw [hmax]

/-- C3 witness: raising the right-hand first-try grip of a student whose
four grips max out at 12 to a new maximum of 20 yields the table score of
20. -/
theorem C3_grip_strength_max_of_four_witness :
    exportComponentScore (setTry1 gripStudent .gripstrR 20) .gripStrength =
      calculateScore .gripStrength .Boy 20 0 :=
  ((C3_grip_strength_max_of_four.2.2 gripStudent 20) (by decide)).1

/-- The `componentOrder` display names, in the source's insertion order. -/
def componentOrder : Component → Str
  | .gripStrength => strL "Grip Strength"
  | .situps => strL "Sit-ups"
  | .seatedtoetouch => strL "Seated Toe Touch"
  | .sidesteps => strL "Side Steps"
  | .«20mshuttleruns» => strL "20 m Shuttle Runs"
  | .«50msprint» => strL "50 m Sprint"
  | .longjump => strL "Long Jump"
  | .softballthrowing => strL "Softball Throwing"

/-- The `getUnitForComponent` function. -/
def getUnitForComponent : Component → Str
  | .«50msprint» => strL "seconds"
  | .longjump => strL "cm"
  | .seatedtoetouch => strL "cm"
  | .softballthrowing => strL "m"
  | _ => strL "times"

/-- A worksheet cell value.  `interp v` is the template-interpolated number
`` `${v}` `` (a string in the sheet), `q v` a raw numeric cell, `n v` a
numeric score cell, `ordName i name` the concatenation
`i + ' ' + student.enname`, and `letter` the grade cell (`none` when
`determineGrade` would throw). -/
inductive CellVal
  | s (text : Str)
  | q (value : ℚ)
  | n (value : ℕ)
  | interp (value : ℚ)
  | ordName (i : ℕ) (name : Str)
  | letter (c : Option Char)

/-- The parts of one rendered per-student worksheet that the exports
produce: the valued header-block cells (by address, in write order), the
`addRow` rows (rows 3–16, in order), the `mergeCells` calls (in order), the
total score, the grade, and the worksheet name. -/
structure Sheet where
  name : CellVal
  headerCells : List (Str × CellVal)
  rows : List (List CellVal)
  merges : List Str
  totalScore : ℕ
  grade : Option Char

/-- `class.slice(1, -1)` — the grade digits of a class string like "G3B". -/
def sliceMid (l : Str) : Str := (l.drop 1).dropLast

/-- `class.slice(-1)` — the trailing section letter. -/
def sliceLast (l : Str) : Str := l.drop (l.length - 1)

/-- The per-student worksheet produced by `exportGradeToIndividualWorkbooks`
(the zip export), transcribed statement-for-statement: the valued header
cells, the fourteen `addRow` calls, the merges in execution order, the
running total, and the grade.  The worksheet name is
`'Grade ' + student.class.slice(1, -1)`.  Style-only writes (cells D2 and
G2, the re-style of H12) carry no values and are omitted. -/
def renderIndividualSheet (student : Student) (i : ℕ) : Sheet :=
  let firstTryR := student.«1sttry» .gripstrR
  let secondTryR := (student.«2ndtry» .gripstrR).getD firstTryR
  let firstTryL := student.«1sttry» .gripstrL
  let secondTryL := (student.«2ndtry» .gripstrL).getD firstTryL
  let maxGripStrength := max (max (max firstTryR secondTryR) firstTryL) secondTryL
  let gripScore := calculateScore .gripStrength student.gender maxGripStrength 0
  let situpsFirst := student.«1sttry» .situps
  let situpsScore := calculateScore .situps student.gender situpsFirst 0
  let seatedFirst := student.«1sttry» .seatedtoetouch
  let seatedSecond := (student.«2ndtry» .seatedtoetouch).getD seatedFirst
  let seatedScore := calculateScore .seatedtoetouch student.gender seatedFirst seatedSecond
  let sidestepsFirst := student.«1sttry» .sidesteps
  let sidestepsSecond := (student.«2ndtry» .sidesteps).getD sidestepsFirst
  let sidestepsScore := calculateScore .sidesteps student.gender sidestepsFirst sidestepsSecond
  let shuttleFirst := student.«1sttry» .«20mshuttleruns»
  let shuttleScore := calculateScore .«20mshuttleruns» student.gender shuttleFirst 0
  let sprintFirst := student.«1sttry» .«50msprint»
  let sprintScore := calculateScore .«50msprint» student.gender sprintFirst 0
  let longjumpFirst := student.«1sttry» .longjump
  let longjumpSecond := (student.«2ndtry» .longjump).getD longjumpFirst
  let longjumpScore := calculateScore .longjump student.gender longjumpFirst longjumpSecond
  let softballFirst := student.«1sttry» .softballthrowing
  let softballSecond := (student.«2ndtry» .softballthrowing).getD softballFirst
  let softballScore :=
    calculateScore .softballthrowing student.gender softballFirst softballSecond
  let totalScore := gripScore + situpsScore + seatedScore + sidestepsScore +
    shuttleScore + sprintScore + longjumpScore + softballScore
  { name := CellVal.s (strL "Grade " ++ sliceMid student.«class»)
    headerCells :=
      [(strL "A1", CellVal.s (strL "Physical Fitness Test Results")),
       (strL "A2", CellVal.s (strL "Grade")),
       (strL "B2", CellVal.s (sliceMid student.«class»)),
       (strL "C2", CellVal.s (strL "Class")),
       (strL "E2", CellVal.s (sliceLast student.«class»)),
       (strL "F2", CellVal.s (strL "Name")),
       (strL "H2", CellVal.ordName i student.enname)]
    rows :=
      [[CellVal.s [], CellVal.s [], CellVal.s []],
       [CellVal.s (strL "Component"), CellVal.s [], CellVal.s (strL "Record"),
        CellVal.s [], CellVal.s [], CellVal.s [], CellVal.s [], CellVal.s [],
        CellVal.s [], CellVal.s (strL "Score")],
       [CellVal.s (strL "Grip Strength"), CellVal.s [], CellVal.s (strL "R"),
        CellVal.s (strL "1:"), CellVal.interp firstTryR, CellVal.s (strL "kg"),
        CellVal.s (strL "2:"), CellVal.interp secondTryR, CellVal.s (strL "kg"),
        CellVal.n gripScore],
       [CellVal.s (strL "Grip Strength"), CellVal.s [], CellVal.s (strL "L"),
        CellVal.s (strL "1:"), CellVal.interp firstTryL, CellVal.s (strL "kg"),
        CellVal.s (strL "2:"), CellVal.interp secondTryL, CellVal.s (strL "kg"),
        CellVal.n gripScore],
       [CellVal.s [], CellVal.s [], CellVal.s (strL "Avg: "),
        CellVal.interp maxGripStrength, CellVal.s [], CellVal.s [], CellVal.s [],
        CellVal.s [], CellVal.s (strL "kg"), CellVal.s []],
       [CellVal.s (componentOrder .situps), CellVal.s [], CellVal.interp situpsFirst,
        CellVal.s [], CellVal.s [], CellVal.s [], CellVal.s [], CellVal.s [],
        CellVal.s (getUnitForComponent .situps), CellVal.n situpsScore],
       [CellVal.s (componentOrder .seatedtoetouch), CellVal.s [], CellVal.s [],
        CellVal.s (strL "1:"), CellVal.q seatedFirst,
        CellVal.s (getUnitForComponent .seatedtoetouch), CellVal.s (strL "2:"),
        CellVal.q seatedSecond, CellVal.s (getUnitForComponent .seatedtoetouch),
        CellVal.n seatedScore],
       [CellVal.s (componentOrder .sidesteps), CellVal.s [], CellVal.s [],
        CellVal.s (strL "1:"), CellVal.q sidestepsFirst,
        CellVal.s (getUnitForComponent .sidesteps), CellVal.s (strL "2:"),
        CellVal.q sidestepsSecond, CellVal.s (getUnitForComponent .sidesteps),
        CellVal.n sidestepsScore],
       [CellVal.s (componentOrder .«20mshuttleruns»), CellVal.s [],
        CellVal.interp shuttleFirst, CellVal.s [], CellVal.s [], CellVal.s [],
        CellVal.s [], CellVal.s [],
        CellVal.s (getUnitForComponent .«20mshuttleruns»), CellVal.n shuttleScore],
       [CellVal.s (componentOrder .«50msprint»), CellVal.s [],
        CellVal.interp sprintFirst, CellVal.s [], CellVal.s [], CellVal.s [],
        CellVal.s [], CellVal.s (getUnitForComponent .«50msprint»), CellVal.s [],
        CellVal.n sprintScore],
       [CellVal.s (componentOrder .longjump), CellVal.s [], CellVal.s [],
        CellVal.s (strL "1:"), CellVal.q longjumpFirst,
        CellVal.s (getUnitForComponent .longjump), CellVal.s (strL "2:"),
        CellVal.q longjumpSecond, CellVal.s (getUnitForComponent .longjump),
        CellVal.n longjumpScore],
       [CellVal.s (componentOrder .softballthrowing), CellVal.s [], CellVal.s [],
        CellVal.s (strL "1:"), CellVal.q softballFirst,
        CellVal.s (getUnitForComponent .softballthrowing), CellVal.s (strL "2:"),
        CellVal.q softballSecond, CellVal.s (getUnitForComponent .softballthrowing),
        CellVal.n softballScore],
       [CellVal.s (strL "Total Score"), CellVal.s [], CellVal.s [], CellVal.s [],
        CellVal.s [], CellVal.s [], CellVal.s [], CellVal.s [], CellVal.s [],
        CellVal.n totalScore],
       [CellVal.s (strL "Grade"), CellVal.s [], CellVal.s [], CellVal.s [],
        CellVal.s [], CellVal.s [], CellVal.s [], CellVal.s [], CellVal.s [],
        CellVal.letter (determineGrade? (totalScore : ℤ) student.«class»)]]
    merges :=
      [strL "A1:J1", strL "C2:D2", strL "G2:F2", strL "H2:J2",
       strL "A4:B4", strL "C4:I4",
       strL "A5:B7", strL "D7:H7", strL "J5:J7",
       strL "A8:B8", strL "C8:H8",
       strL "A9:B9", strL "A10:B10",
       strL "A11:B11", strL "C11:H11",
       strL "A12:B12", strL "C12:G12", strL "H12:I12",
       strL "A13:B13", strL "A14:B14",
       strL "A15:I15", strL "A16:I16"]
    totalScore := totalScore
    grade := determineGrade? (totalScore : ℤ) student.«class» }

/-- The per-student worksheet produced by `exportGradeToSingleWorkbook`
(the one-workbook export), transcribed statement-for-statement from its own
(duplicated) body.  The worksheet name is `` `${index + 1} ${student.enname}` ``;
everything else is written out exactly as in that function. -/
def renderSingleSheet (student : Student) (i : ℕ) : Sheet :=
  let firstTryR := student.«1sttry» .gripstrR
  let secondTryR := (student.«2ndtry» .gripstrR).getD firstTryR
  let firstTryL := student.«1sttry» .gripstrL
  let secondTryL := (student.«2ndtry» .gripstrL).getD firstTryL
  let maxGripStrength := max (max (max firstTryR secondTryR) firstTryL) secondTryL
  let gripScore := calculateScore .gripStrength student.gender maxGripStrength 0
  let situpsFirst := student.«1sttry» .situps
  let situpsScore := calculateScore .situps student.gender situpsFirst 0
  let seatedFirst := student.«1sttry» .seatedtoetouch
  let seatedSecond := (student.«2ndtry» .seatedtoetouch).getD seatedFirst
  let seatedScore := calculateScore .seatedtoetouch student.gender seatedFirst seatedSecond
  let sidestepsFirst := student.«1sttry» .sidesteps
  let sidestepsSecond := (student.«2ndtry» .sidesteps).getD sidestepsFirst
  let sidestepsScore := calculateScore .sidesteps student.gender sidestepsFirst sidestepsSecond
  let shuttleFirst := student.«1sttry» .«20mshuttleruns»
  let shuttleScore := calculateScore .«20mshuttleruns» student.gender shuttleFirst 0
  let sprintFirst := student.«1sttry» .«50msprint»
  let sprintScore := calculateScore .«50msprint» student.gender sprintFirst 0
  let longjumpFirst := student.«1sttry» .longjump
  let longjumpSecond := (student.«2ndtry» .longjump).getD longjumpFirst
  let longjumpScore := calculateScore .longjump student.gender longjumpFirst longjumpSecond
  let softballFirst := student.«1sttry» .softballthrowing
  let softballSecond := (student.«2ndtry» .softballthrowing).getD softballFirst
  let softballScore :=
    calculateScore .softballthrowing student.gender softballFirst softballSecond
  let totalScore := gripScore + situpsScore + seatedScore + sidestepsScore +
    shuttleScore + sprintScore + longjumpScore + softballScore
  { name := CellVal.ordName i student.enname
    headerCells :=
      [(strL "A1", CellVal.s (strL "Physical Fitness Test Results")),
       (strL "A2", CellVal.s (strL "Grade")),
       (strL "B2", CellVal.s (sliceMid student.«class»)),
       (strL "C2", CellVal.s (strL "Class")),
       (strL "E2", CellVal.s (sliceLast student.«class»)),
       (strL "F2", CellVal.s (strL "Name")),
       (strL "H2", CellVal.ordName i student.enname)]
    rows :=
      [[CellVal.s [], CellVal.s [], CellVal.s []],
       [CellVal.s (strL "Component"), CellVal.s [], CellVal.s (strL "Record"),
        CellVal.s [], CellVal.s [], CellVal.s [], CellVal.s [], CellVal.s [],
        CellVal.s [], CellVal.s (strL "Score")],
       [CellVal.s (strL "Grip Strength"), CellVal.s [], CellVal.s (strL "R"),
        CellVal.s (strL "1:"), CellVal.interp firstTryR, CellVal.s (strL "kg"),
        CellVal.s (strL "2:"), CellVal.interp secondTryR, CellVal.s (strL "kg"),
        CellVal.n gripScore],
       [CellVal.s (strL "Grip Strength"), CellVal.s [], CellVal.s (strL "L"),
        CellVal.s (strL "1:"), CellVal.interp firstTryL, CellVal.s (strL "kg"),
        CellVal.s (strL "2:"), CellVal.interp secondTryL, CellVal.s (strL "kg"),
        CellVal.n gripScore],
       [CellVal.s [], CellVal.s [], CellVal.s (strL "Avg: "),
        CellVal.interp maxGripStrength, CellVal.s [], CellVal.s [], CellVal.s [],
        CellVal.s [], CellVal.s (strL "kg"), CellVal.s []],
       [CellVal.s (componentOrder .situps), CellVal.s [], CellVal.interp situpsFirst,
        CellVal.s [], CellVal.s [], CellVal.s [], CellVal.s [], CellVal.s [],
        CellVal.s (getUnitForComponent .situps), CellVal.n situpsScore],
       [CellVal.s (componentOrder .seatedtoetouch), CellVal.s [], CellVal.s [],
        CellVal.s (strL "1:"), CellVal.q seatedFirst,
        CellVal.s (getUnitForComponent .seatedtoetouch), CellVal.s (strL "2:"),
        CellVal.q seatedSecond, CellVal.s (getUnitForComponent .seatedtoetouch),
        CellVal.n seatedScore],
       [CellVal.s (componentOrder .sidesteps), CellVal.s [], CellVal.s [],
        CellVal.s (strL "1:"), CellVal.q sidestepsFirst,
        CellVal.s (getUnitForComponent .sidesteps), CellVal.s (strL "2:"),
        CellVal.q sidestepsSecond, CellVal.s (getUnitForComponent .sidesteps),
        CellVal.n sidestepsScore],
       [CellVal.s (componentOrder .«20mshuttleruns»), CellVal.s [],
        CellVal.interp shuttleFirst, CellVal.s [], CellVal.s [], CellVal.s [],
        CellVal.s [], CellVal.s [],
        CellVal.s (getUnitForComponent .«20mshuttleruns»), CellVal.n shuttleScore],
       [CellVal.s (componentOrder .«50msprint»), CellVal.s [],
        CellVal.interp sprintFirst, CellVal.s [], CellVal.s [], CellVal.s [],
        CellVal.s [], CellVal.s (getUnitForComponent .«50msprint»), CellVal.s [],
        CellVal.n sprintScore],
       [CellVal.s (componentOrder .longjump), CellVal.s [], CellVal.s [],
        CellVal.s (strL "1:"), CellVal.q longjumpFirst,
        CellVal.s (getUnitForComponent .longjump), CellVal.s (strL "2:"),
        CellVal.q longjumpSecond, CellVal.s (getUnitForComponent .longjump),
        CellVal.n longjumpScore],
       [CellVal.s (componentOrder .softballthrowing), CellVal.s [], CellVal.s [],
        CellVal.s (strL "1:"), CellVal.q softballFirst,
        CellVal.s (getUnitForComponent .softballthrowing), CellVal.s (strL "2:"),
        CellVal.q softballSecond, CellVal.s (getUnitForComponent .softballthrowing),
        CellVal.n softballScore],
       [CellVal.s (strL "Total Score"), CellVal.s [], CellVal.s [], CellVal.s [],
        CellVal.s [], CellVal.s [], CellVal.s [], CellVal.s [], CellVal.s [],
        CellVal.n totalScore],
       [CellVal.s (strL "Grade"), CellVal.s [], CellVal.s [], CellVal.s [],
        CellVal.s [], CellVal.s [], CellVal.s [], CellVal.s [], CellVal.s [],
        CellVal.letter (determineGrade? (totalScore : ℤ) student.«class»)]]
    merges :=
      [strL "A1:J1", strL "C2:D2", strL "G2:F2", strL "H2:J2",
       strL "A4:B4", strL "C4:I4",
       strL "A5:B7", strL "D7:H7", strL "J5:J7",
       strL "A8:B8", strL "C8:H8",
       strL "A9:B9", strL "A10:B10",
       strL "A11:B11", strL "C11:H11",
       strL "A12:B12", strL "C12:G12", strL "H12:I12",
       strL "A13:B13", strL "A14:B14",
       strL "A15:I15", strL "A16:I16"]
    totalScore := totalScore
    grade := determineGrade? (totalScore : ℤ) student.«class» }

/-- The sheet sequence of the zip export: one sheet per student, ordinal
counter `i` starting at 1. -/
def sheetsOfZipExport (students : List Student) : List Sheet :=
  students.enum.map (fun p => renderIndividualSheet p.2 (p.1 + 1))

/-- The sheet sequence of the single-workbook export: one sheet per student,
ordinal counter `i` starting at 1. -/
def sheetsOfSingleWorkbook (students : List Student) : List Sheet :=
  students.enum.map (fun p => renderSingleSheet p.2 (p.1 + 1))

/-- C9: the two export modes render each student identically — for every
student and ordinal, the sheet of the zip-of-individual-workbooks export has
the same cell values, merges, scores, total and grade as the sheet of the
single-workbook export, and hence so do the full sheet sequences (only the
worksheet names differ). -/
theorem C9_export_renderers_extensionally_equal :
    (∀ (s : Student) (i : ℕ),
      (renderIndividualSheet s i).headerCells = (renderSingleSheet s i).headerCells ∧
      (renderIndividualSheet s i).rows = (renderSingleSheet s i).rows ∧
      (renderIndividualSheet s i).merges = (renderSingleSheet s i).merges ∧
      (renderIndividualSheet s i).totalScore = (renderSingleSheet s i).totalScore ∧
      (renderIndividualSheet s i).grade = (renderSingleSheet s i).grade) ∧
    (∀ students : List Student,
      (sheetsOfZipExport students).map
        (fun sh => (sh.headerCells, sh.rows, sh.merges, sh.totalScore, sh.grade)) =
      (sheetsOfSingleWorkbook students).map
        (fun sh => (sh.headerCells, sh.rows, sh.merges, sh.totalScore, sh.grade))) := by
  constructor
  · intro s i
    exact ⟨rfl, rfl, rfl, rfl, rfl⟩
  · intro students
    have h : ((fun sh : Sheet => (sh.headerCells, sh.rows, sh.merges, sh.totalScore, sh.grade)) ∘
          (fun p : ℕ × Student => renderIndividualSheet p.2 (p.1 + 1))) =
        ((fun sh : Sheet => (sh.headerCells, sh.rows, sh.merges, sh.totalScore, sh.grade)) ∘
          (fun p : ℕ × Student => renderSingleSheet p.2 (p.1 + 1))) :=
      funext fun p => rfl
    rw [sheetsOfZipExport, sheetsOfSingleWorkbook, List.map_map, List.map_map, h]

end PhysicalFitness
